import Mathlib

/-!
Verification development for the boa JavaScript engine core
(repository slice: `src/boa/src/class.rs`, the executor nodes
`exec/{return_smt,identifier,throw,spread}/mod.rs`, and the parser entry
`syntax/parser/expression/left_hand_side/mod.rs`).

The Rust code is embedded shallowly: pure data becomes Lean structures and
inductives, `&mut` state becomes explicit state passing, fallible code
returns `Except`.  Components of the engine that are referenced by the
excerpted files but whose definitions are not part of the excerpt
(the `Attribute` bitset, `FunctionFlags`, the environment chain, the
interpreter state enum, the token/cursor machinery) are modelled from the
specification, as marked on each such definition.
-/

namespace Boa

/-- Modelled from the spec: the `Attribute` bitset carried by property
descriptors ("Flags are carried by an Attribute bitset").  The flags
`READONLY`, `NON_ENUMERABLE` and `PERMANENT` are distinct bits, with their
positive counterparts on further bits; `|` is bitwise or on the bitset. -/
abbrev Attribute := Nat

def Attribute.READONLY : Attribute := 1

def Attribute.NON_ENUMERABLE : Attribute := 2

def Attribute.PERMANENT : Attribute := 4

def Attribute.WRITABLE : Attribute := 8

def Attribute.ENUMERABLE : Attribute := 16

def Attribute.CONFIGURABLE : Attribute := 32

/-- All attribute bits set (`Attribute::all()` of the bitflags crate). -/
def Attribute.all : Attribute := 63

/-- `Attribute::default()`: the comment in `ClassBuilder::property`
(src/boa/src/class.rs) records it as `READONLY | NON_ENUMERABLE | PERMANENT`. -/
def Attribute.default : Attribute :=
  Attribute.READONLY ||| Attribute.NON_ENUMERABLE ||| Attribute.PERMANENT

/-- Bitset membership test (`Attribute::contains` of the bitflags crate). -/
def Attribute.contains (self flag : Attribute) : Bool :=
  self &&& flag == flag

/-- Modelled from the spec: `FunctionFlags` "mark the function as callable,
constructable, or both", so the two marks are distinct bits. -/
abbrev FunctionFlags := Nat

def FunctionFlags.CALLABLE : FunctionFlags := 1

def FunctionFlags.CONSTRUCTABLE : FunctionFlags := 2

/-- Bitset membership test on function flags. -/
def FunctionFlags.contains (self flag : FunctionFlags) : Bool :=
  self &&& flag == flag

/-- The tagged `Value` union (spec section 3).  `Rational(f64)` is
omitted: no excerpted code touches it.  Heap objects are referenced by an
identifier (`object ref`); `errorObj` is the shallow stand-in, modelled
from the spec, for a constructed Error object carrying name and message. -/
inductive Value where
  | undefined
  | null
  | boolean (b : Bool)
  | integer (i : Int)
  | string (s : String)
  | symbol (id : Nat) (description : Option String)
  | object (ref : Nat)
  | errorObj (name message : String)
deriving DecidableEq

/-- `PropertyKey`: sum of string, symbol and array-index keys (spec section 3). -/
inductive PropertyKey where
  | string (s : String)
  | symbol (id : Nat)
  | index (i : Nat)
deriving DecidableEq

/-- A property: data descriptor or accessor descriptor, flags in an
`Attribute` bitset (spec section 3). -/
inductive Property where
  | data (value : Value) (attr : Attribute)
  | accessor (get set : Value) (attr : Attribute)
deriving DecidableEq

/-- `Property::data_descriptor(value, attribute)`. -/
def Property.data_descriptor (value : Value) (attr : Attribute) : Property :=
  Property.data value attr

/-- The attribute bitset of a property. -/
def Property.attr : Property → Attribute
  | .data _ a => a
  | .accessor _ _ a => a

/-- The `Function` internal-data variant (spec section 3): built-in
functions carry a native function pointer (modelled as an identifier) and
flags; ordinary functions carry parameters, a body and a closure
environment reference. -/
inductive Function where
  | BuiltIn (f : Nat) (flags : FunctionFlags)
  | Ordinary (params : List String) (body : Nat) (env : Nat) (flags : FunctionFlags)
deriving DecidableEq

/-- The internal-data slot of an object, tagging it and holding
variant-specific state; `γ` is the host payload type of `NativeObject`. -/
inductive ObjectData (γ : Type) where
  | Ordinary
  | Function (f : Boa.Function)
  | Error
  | NativeObject (payload : γ)
deriving DecidableEq

/-- A heap object: internal-data slot, prototype link, and ordered
property map (spec section 3). -/
structure Object (γ : Type) where
  data : ObjectData γ
  prototype : Value
  properties : List (PropertyKey × Property)
deriving DecidableEq

/-- Ordered-map insert: overwrite in place when the key is present,
append otherwise (insertion order is preserved). -/
def insertProperty (key : PropertyKey) (p : Property) :
    List (PropertyKey × Property) → List (PropertyKey × Property)
  | [] => [(key, p)]
  | (k, q) :: rest =>
      if k = key then (key, p) :: rest else (k, q) :: insertProperty key p rest

/-- Ordered-map lookup. -/
def lookupProperty (key : PropertyKey) :
    List (PropertyKey × Property) → Option Property
  | [] => none
  | (k, q) :: rest => if k = key then some q else lookupProperty key rest

/-- `Object::insert_property(key, property)`. -/
def Object.insert_property (o : Object γ) (key : PropertyKey) (p : Property) :
    Object γ :=
  { o with properties := insertProperty key p o.properties }

/-- Modelled from the spec: `insert_field` stores a plain data property
(writable, enumerable, configurable, per ECMAScript CreateDataProperty)
under a string key. -/
def Object.insert_field (o : Object γ) (name : String) (value : Value) :
    Object γ :=
  o.insert_property (PropertyKey.string name)
    (Property.data_descriptor value
      (Attribute.WRITABLE ||| Attribute.ENUMERABLE ||| Attribute.CONFIGURABLE))

/-- `Object::create(proto)`: a fresh ordinary object with the given
prototype link. -/
def Object.create (proto : Value) : Object γ :=
  { data := ObjectData.Ordinary, prototype := proto, properties := [] }

/-- `Object::function(function, prototype)`: a fresh function object with
the given internal function data and prototype link. -/
def Object.function (f : Boa.Function) (proto : Value) : Object γ :=
  { data := ObjectData.Function f, prototype := proto, properties := [] }

/-- `Value::set_data` on the object behind `this`. -/
def Object.set_data (o : Object γ) (d : ObjectData γ) : Object γ :=
  { o with data := d }

/-- The flags of the internal function data of an object, when the object
is a function object. -/
def Object.functionFlags (o : Object γ) : Option FunctionFlags :=
  match o.data with
  | ObjectData.Function (Function.BuiltIn _ flags) => some flags
  | ObjectData.Function (Function.Ordinary _ _ _ flags) => some flags
  | _ => none

/-- The `PROTOTYPE` field-name constant. -/
def PROTOTYPE : String := "prototype"

/-- The static data of a native class `T : Class` (src/boa/src/class.rs):
binding name, constructor arity, binding attribute, and the native
function pointer of `T::raw_constructor` (modelled as an identifier). -/
structure ClassSpec (γ : Type) where
  NAME : String
  LENGTH : Nat := 0
  ATTRIBUTE : Attribute := Attribute.all
  ctorFn : Nat

/-- `ClassConstructor::raw_constructor` (src/boa/src/class.rs): runs the
host constructor; on success stores the returned payload into this
object through `set_data` and returns the (shared) object, on failure
propagates the thrown value leaving the object untouched.  The `&mut`
aliasing of `this` is modelled by returning the post-state object next to
the result. -/
def ClassConstructor.raw_constructor
    (constructor : Object γ → List Value → Except Value γ)
    (this : Object γ) (args : List Value) :
    Object γ × Except Value (Object γ) :=
  match constructor this args with
  | Except.error v => (this, Except.error v)
  | Except.ok object_instance =>
      let newThis := this.set_data (ObjectData.NativeObject object_instance)
      (newThis, Except.ok newThis)

/-- `ClassBuilder` (src/boa/src/class.rs): the constructor object and the
prototype object under construction.  The `GcObject` identities of the two
shared objects are carried as `objectRef` and `prototypeRef` so that
`Value.object` references to them can be expressed. -/
structure ClassBuilder (γ : Type) where
  object : Object γ
  prototype : Object γ
  objectRef : Nat
  prototypeRef : Nat

/-- `ClassBuilder::new::<T>` (src/boa/src/class.rs).  The two global
lookups `Object.prototype` and `Function.prototype` are passed in as
`objectProto` and `functionProto`; the freshly allocated `GcObject`
identities are 0 (prototype) and 1 (constructor). -/
def ClassBuilder.new (T : ClassSpec γ) (objectProto functionProto : Value) :
    ClassBuilder γ :=
  let protoRef : Nat := 0
  let ctorRef : Nat := 1
  let prototype : Object γ := Object.create objectProto
  let function : Boa.Function :=
    Function.BuiltIn T.ctorFn FunctionFlags.CONSTRUCTABLE
  let constructor : Object γ := Object.function function functionProto
  let length := Property.data_descriptor (Value.integer (Int.ofNat T.LENGTH))
    (Attribute.READONLY ||| Attribute.NON_ENUMERABLE ||| Attribute.PERMANENT)
  let constructor := constructor.insert_property (PropertyKey.string "length") length
  let name := Property.data_descriptor (Value.string T.NAME)
    (Attribute.READONLY ||| Attribute.NON_ENUMERABLE ||| Attribute.PERMANENT)
  let constructor := constructor.insert_property (PropertyKey.string "name") name
  let prototype := prototype.insert_field "constructor" (Value.object ctorRef)
  let constructor := constructor.insert_field PROTOTYPE (Value.object protoRef)
  { object := constructor, prototype := prototype,
    objectRef := ctorRef, prototypeRef := protoRef }

/-- `ClassBuilder::property` (src/boa/src/class.rs): insert a data
descriptor with the given attribute or-ed with `Attribute::default()`
into the prototype object. -/
def ClassBuilder.property (self : ClassBuilder γ) (key : PropertyKey)
    (value : Value) (attr : Attribute) : ClassBuilder γ :=
  let property := Property.data_descriptor value (attr ||| Attribute.default)
  { self with prototype := self.prototype.insert_property key property }

/-- `ClassBuilder::static_property` (src/boa/src/class.rs): insert a data
descriptor with the given attribute or-ed with `Attribute::default()`
into the class (constructor) object itself. -/
def ClassBuilder.static_property (self : ClassBuilder γ) (key : PropertyKey)
    (value : Value) (attr : Attribute) : ClassBuilder γ :=
  let property := Property.data_descriptor value (attr ||| Attribute.default)
  { self with object := self.object.insert_property key property }

/-- Modelled from the spec: the executor state machine enum
(spec section 4.4), one state per completion kind. -/
inductive InterpreterState where
  | Normal
  | Return
  | Break (label : Option String)
  | Continue (label : Option String)
  | Throw (v : Value)
deriving DecidableEq

/-- Modelled from the spec: one binding slot of an environment frame
(spec section 3), storing value, mutability and whether the binding has
been initialised (TDZ). -/
structure BindingSlot where
  value : Value
  mutable : Bool
  initialised : Bool
deriving DecidableEq

/-- One environment frame: a mapping from names to binding slots. -/
abbrev EnvironmentFrame := List (String × BindingSlot)

/-- Modelled from the spec: the environment chain, innermost frame first
(spec section 3). -/
structure Environment where
  frames : List EnvironmentFrame
deriving DecidableEq

/-- Lookup of a name inside a single frame. -/
def lookupFrame (name : String) : EnvironmentFrame → Option BindingSlot
  | [] => none
  | (n, b) :: rest => if n = name then some b else lookupFrame name rest

/-- Walk the chain outwards and return the first binding slot for the
name, if any frame declares it. -/
def findBinding (name : String) : List EnvironmentFrame → Option BindingSlot
  | [] => none
  | f :: rest =>
      match lookupFrame name f with
      | some b => some b
      | none => findBinding name rest

/-- Modelled from the spec: `get_binding_value` walks the environment
chain and yields the value of the first binding for the name; it yields
nothing when no binding exists or the binding is uninitialised (TDZ),
in which case the caller raises a ReferenceError. -/
def Environment.get_binding_value (env : Environment) (name : String) :
    Option Value :=
  match findBinding name env.frames with
  | some b => if b.initialised then some b.value else none
  | none => none

/-- The execution context (`Context`/`Interpreter`): the interpreter
state flag and the realm environment chain, the two pieces of state the
excerpted executor nodes touch. -/
structure Context where
  state : InterpreterState
  environment : Environment
deriving DecidableEq

/-- Modelled from the spec: `construct_reference_error` builds a
ReferenceError Error value carrying the message. -/
def Context.construct_reference_error (_ctx : Context) (message : String) :
    Value :=
  Value.errorObj "ReferenceError" message

/-- The syntax-tree nodes whose `Executable` impls are excerpted
(`Spread`, `Throw`, `Return`, `Identifier`), plus `Const`, the stand-in
leaf for an arbitrary expression already evaluated to a value. -/
inductive Node where
  | Const (v : Value)
  | Identifier (name : String)
  | Spread (val : Node)
  | Throw (expr : Node)
  | Return (expr : Option Node)

/-- `Executable::run` of the excerpted nodes, with the `&mut Context`
threaded explicitly: each node maps a context to the updated context and
a result (`Ok` value or thrown value).
* `Identifier` (exec/identifier/mod.rs): `get_binding_value(name)`
  `.ok_or_else(construct_reference_error(name))`.
* `Spread` (exec/spread/mod.rs): returns the inner value as-is (TODO in
  the source).
* `Throw` (exec/throw/mod.rs): `Err(self.expr().run(interpreter)?)`.
* `Return` (exec/return_smt/mod.rs): evaluate the expression (or
  `Ok(undefined)` when absent), then set the state flag to `Return`,
  then yield the result. -/
def Node.run : Node → Context → Context × Except Value Value
  | Node.Const v, ctx => (ctx, Except.ok v)
  | Node.Identifier name, ctx =>
      match ctx.environment.get_binding_value name with
      | some v => (ctx, Except.ok v)
      | none => (ctx, Except.error (ctx.construct_reference_error name))
  | Node.Spread val, ctx => val.run ctx
  | Node.Throw expr, ctx =>
      match expr.run ctx with
      | (c, Except.ok v) => (c, Except.error v)
      | (c, Except.error e) => (c, Except.error e)
  | Node.Return (some v), ctx =>
      let result := v.run ctx
      ({ result.1 with state := InterpreterState.Return }, result.2)
  | Node.Return none, ctx =>
      ({ ctx with state := InterpreterState.Return }, Except.ok Value.undefined)

/-- Modelled from the spec: the punctuator tokens the excerpted parser
entry distinguishes (only `(` matters; the others witness the contrast). -/
inductive Punctuator where
  | OpenParen
  | CloseParen
  | Dot
  | OpenBracket
  | Semicolon
deriving DecidableEq

/-- Modelled from the spec: token kinds (spec section 4.1), restricted to
the kinds the excerpted parser entry can observe. -/
inductive TokenKind where
  | Punctuator (p : Boa.Punctuator)
  | Identifier (s : String)
  | NumericLiteral (n : Int)
deriving DecidableEq

/-- A lexed token. -/
structure Token where
  kind : TokenKind
deriving DecidableEq

/-- The lexer goal symbols (spec section 4.1). -/
inductive InputElement where
  | Div
  | RegExp
  | RegExpOrTemplateTail
  | TemplateTail
deriving DecidableEq

/-- A parse diagnostic (spec section 4.2); the payload is irrelevant to
the excerpted entry, which only propagates it. -/
structure ParseError where
  message : String
deriving DecidableEq

/-- Modelled from the spec: the parser cursor, holding the current lexer
goal and the pending stream of token results (`peek` can surface a lexer
error). -/
structure Cursor where
  goal : InputElement
  tokens : List (Except ParseError Token)

/-- `Cursor::set_goal`. -/
def Cursor.set_goal (c : Cursor) (g : InputElement) : Cursor :=
  { c with goal := g }

/-- `Cursor::peek`: the next pending token result, without consuming. -/
def Cursor.peek (c : Cursor) : Option (Except ParseError Token) :=
  c.tokens.head?

/-- `LeftHandSideExpression::parse`
(src/boa/src/syntax/parser/expression/left_hand_side/mod.rs): set the
goal to `TemplateTail`, parse a `MemberExpression`, then continue into
`CallExpression` seeded with the member result exactly when the peeked
token is the `(` punctuator; otherwise return the member result.  The
two sub-parsers live in submodules outside the excerpt and are passed in
as `memberParse` and `callParse`; the cursor is threaded through results
in place of `&mut`. -/
def LeftHandSideExpression.parse {α : Type}
    (memberParse : Cursor → Except ParseError (α × Cursor))
    (callParse : α → Cursor → Except ParseError (α × Cursor))
    (cursor : Cursor) : Except ParseError (α × Cursor) :=
  let cursor := cursor.set_goal InputElement.TemplateTail
  match memberParse cursor with
  | Except.error e => Except.error e
  | Except.ok (lhs, c) =>
      match c.peek with
      | some (Except.error e) => Except.error e
      | some (Except.ok tok) =>
          if tok.kind = TokenKind.Punctuator Punctuator.OpenParen then
            callParse lhs c
          else
            Except.ok (lhs, c)
      | none => Except.ok (lhs, c)

theorem lookupProperty_insertProperty_self (key : PropertyKey) (p : Property)
    (l : List (PropertyKey × Property)) :
    lookupProperty key (insertProperty key p l) = some p := by
  induction l with
  | nil => simp [insertProperty, lookupProperty]
  | cons kv rest ih =>
      obtain ⟨k, q⟩ := kv
      by_cases h : k = key
      · simp [insertProperty, lookupProperty, h]
      · simp [insertProperty, lookupProperty, h, ih]

theorem land_lor_absorb (a f g : Nat) (h : f &&& g = g) : (a ||| f) &&& g = g := by
  apply Nat.eq_of_testBit_eq
  intro i
  have h' := congrArg (fun n => Nat.testBit n i) h
  simp only [Nat.testBit_land, Nat.testBit_lor] at h' ⊢
  cases hg : Nat.testBit g i with
  | false => simp [hg]
  | true =>
      rw [hg] at h'
      simp only [Bool.and_true] at h'
      simp [h', hg]

theorem Attribute.contains_lor_of_contains (a f g : Attribute)
    (h : Attribute.contains f g = true) :
    Attribute.contains (a ||| f) g = true := by
  unfold Attribute.contains at h ⊢
  rw [beq_iff_eq] at h ⊢
  exact land_lor_absorb a f g h

/-- Claim C1: `ClassBuilder::property` and `ClassBuilder::static_property`
insert, for any attribute bitset, a data descriptor whose attribute is the
given one bitwise-or-ed with `READONLY | NON_ENUMERABLE | PERMANENT`
(which is `Attribute::default()`); consequently every property added this
way has `READONLY`, `NON_ENUMERABLE` and `PERMANENT` set regardless of the
attributes the caller requested. -/
theorem claim1_property_attr_or_default (γ : Type) (b : ClassBuilder γ)
    (key : PropertyKey) (value : Value) (attr : Attribute) :
    Attribute.default =
      (Attribute.READONLY ||| Attribute.NON_ENUMERABLE ||| Attribute.PERMANENT) ∧
    lookupProperty key ((b.property key value attr).prototype.properties) =
      some (Property.data_descriptor value (attr ||| Attribute.default)) ∧
    lookupProperty key ((b.static_property key value attr).object.properties) =
      some (Property.data_descriptor value (attr ||| Attribute.default)) ∧
    Attribute.contains (attr ||| Attribute.default) Attribute.READONLY = true ∧
    Attribute.contains (attr ||| Attribute.default) Attribute.NON_ENUMERABLE = true ∧
    Attribute.contains (attr ||| Attribute.default) Attribute.PERMANENT = true := by
  refine ⟨rfl, ?_, ?_, ?_, ?_, ?_⟩
  · simp [ClassBuilder.property, Object.insert_property,
      lookupProperty_insertProperty_self]
  · simp [ClassBuilder.static_property, Object.insert_property,
      lookupProperty_insertProperty_self]
  · exact Attribute.contains_lor_of_contains attr Attribute.default
      Attribute.READONLY (by decide)
  · exact Attribute.contains_lor_of_contains attr Attribute.default
      Attribute.NON_ENUMERABLE (by decide)
  · exact Attribute.contains_lor_of_contains attr Attribute.default
      Attribute.PERMANENT (by decide)

/-- A concrete sample native class used for concrete evaluations. -/
def sampleClass : ClassSpec Unit :=
  { NAME := "Sample", LENGTH := 1, ctorFn := 42 }

/-- Claim C2 counterexample: at a concrete class, `ClassBuilder::new`
stores flags that are `CONSTRUCTABLE` only, and those flags do NOT mark
the function as `CALLABLE`; so the built flags are not
`Callable | Constructable` as the claim states. -/
theorem claim2_counterexample :
    (ClassBuilder.new sampleClass Value.null Value.null).object.functionFlags =
      some FunctionFlags.CONSTRUCTABLE ∧
    ¬ ∃ flags,
        (ClassBuilder.new sampleClass Value.null Value.null).object.functionFlags =
          some flags ∧
        FunctionFlags.contains flags FunctionFlags.CALLABLE = true := by
  constructor
  · rfl
  · rintro ⟨flags, hfl, hc⟩
    have h0 : (ClassBuilder.new sampleClass Value.null Value.null).object.functionFlags =
        some FunctionFlags.CONSTRUCTABLE := rfl
    rw [h0, Option.some_inj] at hfl
    rw [← hfl] at hc
    exact absurd hc (by decide)

/-- Claim C2 (amended): for every native class `T`, `ClassBuilder::new`
builds the constructor function object with internal data
`Function(BuiltIn(T::raw_constructor, CONSTRUCTABLE))` — the flags mark
the function as Constructable only, not Callable — and with its prototype
link set to `Function.prototype`. -/
theorem claim2_constructor_function_data (γ : Type) (T : ClassSpec γ)
    (objectProto functionProto : Value) :
    (ClassBuilder.new T objectProto functionProto).object.data =
      ObjectData.Function (Function.BuiltIn T.ctorFn FunctionFlags.CONSTRUCTABLE) ∧
    (ClassBuilder.new T objectProto functionProto).object.prototype =
      functionProto := by
  exact ⟨rfl, rfl⟩

/-- A concrete object used for concrete evaluations. -/
def sampleObject : Object Nat :=
  { data := ObjectData.Ordinary, prototype := Value.null, properties := [] }

/-- Claim C3: `raw_constructor` wraps the host constructor: if it returns
`Ok(payload)`, the internal data of `this` is set to
`NativeObject(payload)` and `this` is returned; if it returns `Err(v)`,
the error is propagated and the internal data of `this` is untouched. -/
theorem claim3_raw_constructor_wraps (γ : Type)
    (constructor : Object γ → List Value → Except Value γ)
    (this : Object γ) (args : List Value) :
    (∀ payload, constructor this args = Except.ok payload →
      ClassConstructor.raw_constructor constructor this args =
        (this.set_data (ObjectData.NativeObject payload),
         Except.ok (this.set_data (ObjectData.NativeObject payload)))) ∧
    (∀ v, constructor this args = Except.error v →
      ClassConstructor.raw_constructor constructor this args =
        (this, Except.error v)) := by
  constructor
  · intro payload h
    simp [ClassConstructor.raw_constructor, h]
  · intro v h
    simp [ClassConstructor.raw_constructor, h]

/-- Claim C3 witness: concrete success and failure runs. -/
theorem claim3_witness :
    ClassConstructor.raw_constructor (fun _ _ => Except.ok 7) sampleObject [] =
      (sampleObject.set_data (ObjectData.NativeObject 7),
       Except.ok (sampleObject.set_data (ObjectData.NativeObject 7))) ∧
    ClassConstructor.raw_constructor (fun _ _ => Except.error Value.null)
        sampleObject [] =
      (sampleObject, Except.error Value.null) :=
  ⟨(claim3_raw_constructor_wraps Nat (fun _ _ => Except.ok 7)
      sampleObject []).1 7 rfl,
   (claim3_raw_constructor_wraps Nat (fun _ _ => Except.error Value.null)
      sampleObject []).2 Value.null rfl⟩

/-- Claim C9: `ClassBuilder::new` produces a prototype object whose
prototype link is `Object.prototype` and whose own `constructor` field
refers to the constructor function object, while the constructor function
object owns a `prototype` field referring back to the prototype object. -/
theorem claim9_prototype_constructor_links (γ : Type) (T : ClassSpec γ)
    (objectProto functionProto : Value) :
    (ClassBuilder.new T objectProto functionProto).prototype.prototype =
      objectProto ∧
    lookupProperty (PropertyKey.string "constructor")
        (ClassBuilder.new T objectProto functionProto).prototype.properties =
      some (Property.data_descriptor
        (Value.object (ClassBuilder.new T objectProto functionProto).objectRef)
        (Attribute.WRITABLE ||| Attribute.ENUMERABLE ||| Attribute.CONFIGURABLE)) ∧
    lookupProperty (PropertyKey.string PROTOTYPE)
        (ClassBuilder.new T objectProto functionProto).object.properties =
      some (Property.data_descriptor
        (Value.object (ClassBuilder.new T objectProto functionProto).prototypeRef)
        (Attribute.WRITABLE ||| Attribute.ENUMERABLE ||| Attribute.CONFIGURABLE)) := by
  exact ⟨rfl, rfl, rfl⟩

/-- Claim C4: evaluating a `Spread` node yields exactly the result of
evaluating its inner expression — value or thrown value, with identical
context effects — with no expansion into positional arguments. -/
theorem claim4_spread_identity (e : Node) (ctx : Context) :
    (Node.Spread e).run ctx = e.run ctx := by
  simp [Node.run]

/-- A concrete environment with an initialised binding `x` and an
uninitialised (TDZ) binding `y`. -/
def sampleEnvironment : Environment :=
  { frames :=
      [[("x", { value := Value.integer 3, mutable := true, initialised := true }),
        ("y", { value := Value.undefined, mutable := true, initialised := false })]] }

/-- A concrete execution context used for concrete evaluations. -/
def sampleContext : Context :=
  { state := InterpreterState.Normal, environment := sampleEnvironment }

/-- Claim C5: evaluating an `Identifier` returns `Err` with a constructed
ReferenceError exactly when the environment chain yields no binding value
for the name — that is, when no binding exists or the first binding found
is uninitialised — and otherwise returns `Ok` with the binding value. -/
theorem claim5_identifier_resolution (name : String) (ctx : Context) :
    (∀ v, ctx.environment.get_binding_value name = some v →
      (Node.Identifier name).run ctx = (ctx, Except.ok v)) ∧
    (ctx.environment.get_binding_value name = none →
      (Node.Identifier name).run ctx =
        (ctx, Except.error (ctx.construct_reference_error name))) ∧
    (ctx.environment.get_binding_value name = none ↔
      findBinding name ctx.environment.frames = none ∨
      ∃ b, findBinding name ctx.environment.frames = some b ∧
        b.initialised = false) := by
  refine ⟨?_, ?_, ?_⟩
  · intro v h
    simp [Node.run, h]
  · intro h
    simp [Node.run, h]
  · unfold Environment.get_binding_value
    cases hf : findBinding name ctx.environment.frames with
    | none => simp
    | some b => cases hb : b.initialised <;> simp [hb]

/-- Claim C5 witness: concrete runs over `sampleContext` — an initialised
binding resolves, an uninitialised one raises ReferenceError. -/
theorem claim5_witness :
    (Node.Identifier "x").run sampleContext =
      (sampleContext, Except.ok (Value.integer 3)) ∧
    (Node.Identifier "y").run sampleContext =
      (sampleContext, Except.error (sampleContext.construct_reference_error "y")) :=
  ⟨(claim5_identifier_resolution "x" sampleContext).1 (Value.integer 3) rfl,
   (claim5_identifier_resolution "y" sampleContext).2.1 rfl⟩

/-- Claim C6: when the expression of a `Return` node evaluates
successfully, `Return::run` sets the interpreter state to
`InterpreterState::Return` and yields the value of the expression; a
`Return` node without expression sets the state to `Return` and yields
`Undefined`. -/
theorem claim6_return_sets_state (e : Node) (ctx c : Context) (v : Value) :
    (e.run ctx = (c, Except.ok v) →
      (Node.Return (some e)).run ctx =
        ({ c with state := InterpreterState.Return }, Except.ok v)) ∧
    (Node.Return none).run ctx =
      ({ ctx with state := InterpreterState.Return }, Except.ok Value.undefined) := by
  constructor
  · intro h
    simp [Node.run, h]
  · simp [Node.run]

/-- Claim C6 witness: a concrete successful return run. -/
theorem claim6_witness :
    (Node.Return (some (Node.Const (Value.integer 1)))).run sampleContext =
      ({ sampleContext with state := InterpreterState.Return },
       Except.ok (Value.integer 1)) :=
  (claim6_return_sets_state (Node.Const (Value.integer 1)) sampleContext
    sampleContext (Value.integer 1)).1 (by simp [Node.run])

/-- Claim C7: evaluating a `Throw` node never returns `Ok`: when the
inner expression evaluates to a value `v` the result is `Err(v)`, and
when the inner evaluation itself throws `e` the result is `Err(e)`. -/
theorem claim7_throw_never_ok (e : Node) (ctx c : Context) :
    (∀ v, e.run ctx = (c, Except.ok v) →
      (Node.Throw e).run ctx = (c, Except.error v)) ∧
    (∀ w, e.run ctx = (c, Except.error w) →
      (Node.Throw e).run ctx = (c, Except.error w)) ∧
    (∃ u, ((Node.Throw e).run ctx).2 = Except.error u) := by
  refine ⟨?_, ?_, ?_⟩
  · intro v h
    simp [Node.run, h]
  · intro w h
    simp [Node.run, h]
  · rcases he : e.run ctx with ⟨c', r⟩
    cases r with
    | ok v => exact ⟨v, by simp [Node.run, he]⟩
    | error w => exact ⟨w, by simp [Node.run, he]⟩

/-- Claim C7 witness: a concrete throw of a value. -/
theorem claim7_witness :
    (Node.Throw (Node.Const (Value.integer 2))).run sampleContext =
      (sampleContext, Except.error (Value.integer 2)) :=
  (claim7_throw_never_ok (Node.Const (Value.integer 2)) sampleContext
    sampleContext).1 (Value.integer 2) (by simp [Node.run])

/-- Claim C10: when the expression of a `Return` node evaluates to a
thrown value, `Return::run` still sets the interpreter state to
`InterpreterState::Return` — not a throw state — before propagating the
error: the state assignment happens unconditionally after evaluating the
expression. -/
theorem claim10_return_state_on_error (e : Node) (ctx c : Context) (v : Value) :
    e.run ctx = (c, Except.error v) →
    (Node.Return (some e)).run ctx =
      ({ c with state := InterpreterState.Return }, Except.error v) := by
  intro h
  simp [Node.run, h]

/-- Claim C10 witness: a `Return` whose expression throws still ends in
the `Return` interpreter state. -/
theorem claim10_witness :
    (Node.Return (some (Node.Throw (Node.Const Value.null)))).run sampleContext =
      ({ sampleContext with state := InterpreterState.Return },
       Except.error Value.null) :=
  claim10_return_state_on_error (Node.Throw (Node.Const Value.null))
    sampleContext sampleContext Value.null (by simp [Node.run])

/-- Claim C8: `LeftHandSideExpression::parse` first parses a
`MemberExpression` (propagating its failure); it then continues into
`CallExpression`, seeded with the member result, exactly when the next
peeked token is the `(` punctuator, and otherwise returns the member
result unchanged. -/
theorem claim8_lhs_member_then_call (α : Type)
    (memberParse : Cursor → Except ParseError (α × Cursor))
    (callParse : α → Cursor → Except ParseError (α × Cursor))
    (cursor : Cursor) (lhs : α) (c : Cursor) :
    (∀ e, memberParse (cursor.set_goal InputElement.TemplateTail) =
        Except.error e →
      LeftHandSideExpression.parse memberParse callParse cursor =
        Except.error e) ∧
    (memberParse (cursor.set_goal InputElement.TemplateTail) =
        Except.ok (lhs, c) →
      (∀ tok, c.peek = some (Except.ok tok) →
        LeftHandSideExpression.parse memberParse callParse cursor =
          (if tok.kind = TokenKind.Punctuator Punctuator.OpenParen then
            callParse lhs c
          else
            Except.ok (lhs, c))) ∧
      (c.peek = none →
        LeftHandSideExpression.parse memberParse callParse cursor =
          Except.ok (lhs, c))) := by
  constructor
  · intro e h
    simp [LeftHandSideExpression.parse, h]
  · intro h
    constructor
    · intro tok htok
      simp [LeftHandSideExpression.parse, h, htok]
    · intro hnone
      simp [LeftHandSideExpression.parse, h, hnone]

/-- A concrete cursor whose next token is the `(` punctuator. -/
def sampleCursor : Cursor :=
  { goal := InputElement.Div,
    tokens := [Except.ok { kind := TokenKind.Punctuator Punctuator.OpenParen }] }

/-- A concrete member-expression sub-parser for the witness. -/
def sampleMemberParse : Cursor → Except ParseError (Nat × Cursor) :=
  fun c => Except.ok (5, c)

/-- A concrete call-expression sub-parser for the witness. -/
def sampleCallParse : Nat → Cursor → Except ParseError (Nat × Cursor) :=
  fun lhs c => Except.ok (lhs + 1, { c with tokens := c.tokens.drop 1 })

/-- Claim C8 witness: with `(` pending, parsing continues into the
call-expression sub-parser seeded with the member result. -/
theorem claim8_witness :
    LeftHandSideExpression.parse sampleMemberParse sampleCallParse sampleCursor =
      sampleCallParse 5 (sampleCursor.set_goal InputElement.TemplateTail) := by
  have h := ((claim8_lhs_member_then_call Nat sampleMemberParse sampleCallParse
      sampleCursor 5 (sampleCursor.set_goal InputElement.TemplateTail)).2 rfl).1
    { kind := TokenKind.Punctuator Punctuator.OpenParen } rfl
  simpa using h

end Boa
